import Mathlib

/-!
Shallow embedding of the crypto-metrics snapshot aggregation and signal
engine (src/server.js).  JavaScript numbers are modelled as exact
rationals (`ℚ`), epoch-millisecond timestamps as `ℤ`, nullable values as
`Option`.  Reason strings pushed by the signal engine are modelled by an
inductive `Reason` naming the push site (the formatted numbers inside
the strings are presentation only).  Fetch results and the wall clock
are passed explicitly; a possible exception escaping the assembly
pipeline is modelled by an `Option JsError` field of the environment.
-/

namespace CryptoMetrics

/-- Threshold `PRICE_MOVE_15M_PCT = 3.0` (server.js line 16). -/
def PRICE_MOVE_15M_PCT : ℚ := 3

/-- Threshold `OI_MOVE_4H_PCT = 5.0` (server.js line 17). -/
def OI_MOVE_4H_PCT : ℚ := 5

/-- Threshold `FUNDING_CROWD_LONG = 0.0005` (server.js line 18). -/
def FUNDING_CROWD_LONG : ℚ := 5 / 10000

/-- Threshold `FUNDING_CROWD_SHORT = -0.0005` (server.js line 19). -/
def FUNDING_CROWD_SHORT : ℚ := -5 / 10000

/-- Function `pct(a, b)` (server.js lines 43-46): null when either argument is
null or `a === 0`, otherwise `((b - a) / a) * 100.0`. -/
def pct (a b : Option ℚ) : Option ℚ :=
  match a, b with
  | some x, some y => if x = 0 then none else some ((y - x) / x * 100)
  | _, _ => none

/-- A kline entry; the source indexes the raw array: `k[4]` is the
close price, `k[6]` the close time (epoch ms). -/
structure Candle where
  closeTime : ℤ
  close : ℚ
  deriving DecidableEq, Repr

/-- Function `lastClose(kl)` (server.js line 47): the last candle's close, null
on an empty or absent series. -/
def lastClose (kl : Option (List Candle)) : Option ℚ :=
  match kl with
  | none => none
  | some [] => none
  | some (k :: rest) => some ((k :: rest).getLast (by simp)).close

/-- The `for (const k of kl) { if (k[6] <= target) candidate = k; else break; }`
loop of `closeAtOrBefore` (server.js lines 52-54). -/
def closeAtOrBeforeLoop (target : ℤ) (candidate : Candle) : List Candle → Candle
  | [] => candidate
  | k :: rest => if k.closeTime ≤ target then closeAtOrBeforeLoop target k rest else candidate

/-- Function `closeAtOrBefore(kl, msAgo)` (server.js lines 48-56).  `Date.now()`
is the explicit `now` argument. -/
def closeAtOrBefore (now : ℤ) (kl : Option (List Candle)) (msAgo : ℤ) : Option ℚ :=
  match kl with
  | none => none
  | some [] => none
  | some (k0 :: rest) =>
    let target := now - msAgo
    some (closeAtOrBeforeLoop target k0 (k0 :: rest)).close

/-- Stated from the spec's words, for comparison with `closeAtOrBefore`:
"the most recent candle whose close-time ≤ (now − lookbackMs)" is, in a
chronologically ordered series, the last qualifying candle; "returns
that candle's close, or the first candle's close if none qualify, or
null if series empty". -/
def closeAtOrBeforeSpec (now : ℤ) (kl : Option (List Candle)) (msAgo : ℤ) : Option ℚ :=
  match kl with
  | none => none
  | some [] => none
  | some (k0 :: rest) =>
    let target := now - msAgo
    let qualifying := (k0 :: rest).filter (fun k => decide (k.closeTime ≤ target))
    match qualifying.getLast? with
    | some k => some k.close
    | none => some k0.close

/-- Javascript `Math.sign` restricted to the rationals (no NaN / negative zero). -/
def jsSign (x : ℚ) : ℤ :=
  if 0 < x then 1 else if x < 0 then -1 else 0

/-- JavaScript truthiness test `dp15 && dp15 > 0` used by the
open-interest rule (server.js lines 183 and 185): null and 0 are falsy,
so the test holds exactly when the delta is present and positive. -/
def posPrice (dp15 : Option ℚ) : Bool :=
  match dp15 with
  | some d => decide (0 < d)
  | none => false

/-- One reason string pushed by `makeSignal`, identified by its push
site (server.js lines 178-198). -/
inductive Reason where
  | priceUp
  | priceDown
  | oiUp
  | oiDown
  | fundingFlip
  | crowdedLongs
  | crowdedShorts
  | flowPos
  | flowNeg
  deriving DecidableEq, Repr

/-- The discrete signal classification. -/
inductive Signal where
  | BUY
  | SELL
  | NEUTRAL
  deriving DecidableEq, Repr

/-- The `derived` bundle handed to `makeSignal` (server.js lines
259-266). -/
structure DeltaBundle where
  priceNow : Option ℚ
  price15mAgo : Option ℚ
  price4hAgo : Option ℚ
  fundingNow : Option ℚ
  fundingPrev : Option ℚ
  oiNow : Option ℚ
  oi4hAgo : Option ℚ
  netFlowBase : Option ℚ
  deriving DecidableEq, Repr

/-- Result record of `makeSignal` (server.js line 202). -/
structure SignalResult where
  signal : Signal
  score : ℤ
  reasons : List Reason
  dp15 : Option ℚ
  doi4h : Option ℚ
  deriving DecidableEq, Repr

/-- Price rule (server.js lines 177-180): score and reasons contributed
by the 15-minute price delta. -/
def priceContrib (dp15 : Option ℚ) : ℤ × List Reason :=
  match dp15 with
  | some d =>
    if d ≥ PRICE_MOVE_15M_PCT then (2, [Reason.priceUp])
    else if d ≤ -PRICE_MOVE_15M_PCT then (-2, [Reason.priceDown])
    else (0, [])
  | none => (0, [])

/-- Open-interest rule (server.js lines 181-187): score and reasons
contributed by the 4-hour open-interest delta. -/
def oiContrib (dp15 doi4h : Option ℚ) : ℤ × List Reason :=
  match doi4h with
  | some d =>
    if d ≥ OI_MOVE_4H_PCT then
      (if posPrice dp15 then 2 else 1, [Reason.oiUp])
    else if d ≤ -OI_MOVE_4H_PCT then
      (if posPrice dp15 then 1 else 0, [Reason.oiDown])
    else (0, [])
  | none => (0, [])

/-- Funding-flip rule (server.js lines 188-190). -/
def flipContrib (fundingPrev fundingNow : Option ℚ) : ℤ × List Reason :=
  match fundingPrev, fundingNow with
  | some p, some n =>
    if jsSign p ≠ jsSign n then (1, [Reason.fundingFlip]) else (0, [])
  | _, _ => (0, [])

/-- Crowding rule (server.js lines 191-194): two independent checks on
the current funding rate. -/
def crowdContrib (fundingNow : Option ℚ) : ℤ × List Reason :=
  match fundingNow with
  | some n =>
    let a := if n > FUNDING_CROWD_LONG * 3 then ((-1 : ℤ), [Reason.crowdedLongs]) else (0, [])
    let b := if n < FUNDING_CROWD_SHORT * 3 then ((1 : ℤ), [Reason.crowdedShorts]) else (0, [])
    (a.1 + b.1, a.2 ++ b.2)
  | none => (0, [])

/-- Order-flow line (server.js lines 195-199): informational only, no
score contribution. -/
def flowReasons (netFlowBase : Option ℚ) : List Reason :=
  match netFlowBase with
  | some f => if f ≥ 0 then [Reason.flowPos] else [Reason.flowNeg]
  | none => []

/-- Function `makeSignal(s)` (server.js lines 169-203).  The source mutates a
`score` counter through a fixed sequence of independent `if` blocks and
pushes reasons in the same order; no condition reads `score`, so the
sequential mutation is the sum of the per-rule contributions, reasons
concatenated in push order. -/
def makeSignal (s : DeltaBundle) : SignalResult :=
  let dp15 := pct s.price15mAgo s.priceNow
  let doi4h := pct s.oi4hAgo s.oiNow
  let p := priceContrib dp15
  let o := oiContrib dp15 doi4h
  let f := flipContrib s.fundingPrev s.fundingNow
  let c := crowdContrib s.fundingNow
  let score := p.1 + o.1 + f.1 + c.1
  let reasons := p.2 ++ o.2 ++ f.2 ++ c.2 ++ flowReasons s.netFlowBase
  let signal := if score ≥ 3 then Signal.BUY else if score ≤ -2 then Signal.SELL else Signal.NEUTRAL
  { signal := signal, score := score, reasons := reasons, dp15 := dp15, doi4h := doi4h }

/-- The error descriptor stored in a degraded record:
`err.response?.status || err.message` (server.js line 298). -/
inductive ErrDescr where
  | status (code : ℤ)
  | msg (text : String)
  deriving DecidableEq, Repr

/-- A JavaScript exception as observed by the orchestrator: an optional
HTTP response status and a message. -/
structure JsError where
  responseStatus : Option ℤ
  message : String
  deriving DecidableEq, Repr

/-- Expression `err.response?.status || err.message`: the status when present and
truthy (nonzero), otherwise the message. -/
def errDescr (e : JsError) : ErrDescr :=
  match e.responseStatus with
  | some s => if s ≠ 0 then ErrDescr.status s else ErrDescr.msg e.message
  | none => ErrDescr.msg e.message

/-- Normalized `fetchSpot24h` result (server.js lines 103-113). -/
structure Spot24 where
  price : ℚ
  volume : ℚ
  takerBuyBase : ℚ
  quoteVolume : ℚ
  deriving DecidableEq, Repr

/-- A `premiumIndex` payload; the fields the builder reads, each
possibly absent in the raw JSON (`?? 0` / `?? null` coalescing is done
at the use site, server.js lines 225-227 and 239-241). -/
structure PremiumIndex where
  lastFundingRate : Option ℚ
  nextFundingTime : Option ℤ
  markPrice : Option ℚ
  deriving DecidableEq, Repr

/-- A funding-history entry `{ rate, time }` (server.js line 129). -/
structure FundEntry where
  rate : ℚ
  time : ℤ
  deriving DecidableEq, Repr

/-- An open-interest-history entry `{ oi, time }` (server.js line 140). -/
structure OiEntry where
  oi : ℚ
  time : ℤ
  deriving DecidableEq, Repr

/-- A liquidation entry `{ side, price, qty, time }` (server.js line 146). -/
structure Liq where
  side : String
  price : ℚ
  qty : ℚ
  time : ℤ
  deriving DecidableEq, Repr

/-- The trimmed `spot24` sub-record of a snapshot (server.js lines
276-280). -/
structure Spot24Summary where
  volume : ℚ
  takerBuyBase : ℚ
  quoteVolume : ℚ
  deriving DecidableEq, Repr

/-- The `deltas` sub-record of a snapshot (server.js lines 281-285). -/
structure Deltas where
  price15mPct : Option ℚ
  oi4hPct : Option ℚ
  netFlowBase : Option ℚ
  deriving DecidableEq, Repr

/-- The `signal` sub-record of a snapshot (server.js line 289). -/
structure SignalField where
  value : Signal
  score : ℤ
  reasons : List Reason
  deriving DecidableEq, Repr

/-- The `markets` sub-record of a snapshot (server.js line 290). -/
structure Markets where
  spot : Bool
  usdM : Bool
  coinM : Bool
  deriving DecidableEq, Repr

/-- The assembled snapshot (server.js lines 269-292). -/
structure Snap where
  symbol : String
  price : Option ℚ
  fundingRate : Option ℚ
  nextFundingTime : Option ℤ
  openInterest : Option ℚ
  markPrice : Option ℚ
  spot24 : Option Spot24Summary
  deltas : Deltas
  fundingHist : List FundEntry
  oiHist : List OiEntry
  liquidations : List Liq
  signal : SignalField
  markets : Markets
  fetchedAt : ℤ
  deriving DecidableEq, Repr

/-- What `buildSnapshot` returns: a full snapshot on the success path,
or the degraded record `{ symbol, error, fetchedAt }` of server.js
line 298. -/
inductive SnapshotRecord where
  | ok (snap : Snap)
  | degraded (symbol : String) (error : ErrDescr) (fetchedAt : ℤ)
  deriving DecidableEq, Repr

/-- Both record shapes carry a `fetchedAt` timestamp. -/
def SnapshotRecord.fetchedAt : SnapshotRecord → ℤ
  | .ok s => s.fetchedAt
  | .degraded _ _ t => t

/-- Whether a record carries an error descriptor. -/
def SnapshotRecord.isDegraded : SnapshotRecord → Bool
  | .ok _ => false
  | .degraded _ _ _ => true

/-- One entry of the `store` map: `{ snapshot, history[] }`
(server.js line 27). -/
structure StoreEntry where
  snapshot : Option SnapshotRecord
  history : List SnapshotRecord
  deriving DecidableEq, Repr

/-- The module-level `store` map, symbol-keyed. -/
def Store := String → Option StoreEntry

/-- A fresh process: the store holds no symbol. -/
def emptyStore : Store := fun _ => none

/-- Default retention window `maxMs = 24*60*60*1000` (server.js
line 30). -/
def HISTORY_MAX_MS : ℤ := 24 * 60 * 60 * 1000

/-- Function `keepHistory(sym, snap, maxMs)` (server.js lines 30-37): create the
entry if absent, set the cached snapshot, push `snap` at the tail, then
keep exactly the entries with `fetchedAt >= Date.now() - maxMs`.
`Date.now()` is the explicit `now` argument. -/
def keepHistory (sym : String) (snap : SnapshotRecord) (maxMs now : ℤ) (st : Store) : Store :=
  let o := (st sym).getD { snapshot := none, history := [] }
  let cutoff := now - maxMs
  let history := (o.history ++ [snap]).filter (fun x => decide (cutoff ≤ x.fetchedAt))
  fun s => if s = sym then some { snapshot := some snap, history := history } else st s

/-- Function `hist(sym)` (server.js lines 38-40): the retained history, empty
for an unknown symbol.  A pure read of the store. -/
def hist (sym : String) (st : Store) : List SnapshotRecord :=
  match st sym with
  | some o => o.history
  | none => []

/-- The results of one cycle's external interactions for one symbol, as
seen at the fetcher boundaries: the cached market flags resolved by
`detectMarkets`, each fetcher's outcome (fetchers catch their own
transport errors and return the null/empty sentinel of their catch
branch), the wall clock, and a possible exception escaping the assembly
pipeline itself (`fault`), which the `try` of server.js line 207
catches. -/
structure FetchEnv where
  spot : Bool
  usdM : Bool
  coinM : Option String
  spot24 : Option Spot24
  kl15 : Option (List Candle)
  kl4h : Option (List Candle)
  fapiPi : Option PremiumIndex
  fapiFundHist : List FundEntry
  fapiOi : Option ℚ
  fapiOiHist : List OiEntry
  fapiLiqs : List Liq
  dapiPi : Option PremiumIndex
  dapiFundHist : List FundEntry
  dapiLiqs : List Liq
  now : ℤ
  fault : Option JsError

/-- The body of `buildSnapshot`'s `try` block (server.js lines
207-295, up to the `keepHistory` call): assembles the snapshot, or
fails with the exception modelled by `env.fault`. -/
def buildSnapshotBody (symbol : String) (env : FetchEnv) : Except JsError Snap :=
  match env.fault with
  | some e => Except.error e
  | none =>
    let spot := env.spot
    let usdM := env.usdM
    let coinM := env.coinM
    let spot24 := if spot then env.spot24 else none
    let kl15 := if spot then env.kl15 else none
    let kl4h := if spot then env.kl4h else none
    let piVals : Option ℚ × Option ℤ × Option ℚ :=
      if usdM then
        match env.fapiPi with
        | some pi => (some (pi.lastFundingRate.getD 0), pi.nextFundingTime,
                      some (pi.markPrice.getD 0))
        | none => (none, none, none)
      else if coinM.isSome then
        match env.dapiPi with
        | some pi => (some (pi.lastFundingRate.getD 0), pi.nextFundingTime,
                      some (pi.markPrice.getD 0))
        | none => (none, none, none)
      else (none, none, none)
    let fundingNow := piVals.1
    let nextFundingTime := piVals.2.1
    let markPrice := piVals.2.2
    let fundHist := if usdM then env.fapiFundHist
                    else if coinM.isSome then env.dapiFundHist else []
    let oiNow := if usdM then env.fapiOi else none
    let oiHist := if usdM then env.fapiOiHist else []
    let liqs := if usdM then env.fapiLiqs
                else if coinM.isSome then env.dapiLiqs else []
    let priceNow :=
      match kl15 with
      | some l => lastClose (some l)
      | none =>
        match spot24 with
        | some s24 => some s24.price
        | none => markPrice
    let price15mAgo :=
      match kl15 with
      | some l => closeAtOrBefore env.now (some l) (15 * 60 * 1000)
      | none => none
    let price4hAgo :=
      match kl4h with
      | some l => closeAtOrBefore env.now (some l) (4 * 60 * 60 * 1000)
      | none => none
    let netFlowBase : Option ℚ :=
      match spot24 with
      | some s24 => some (s24.takerBuyBase - max (s24.volume - s24.takerBuyBase) 0)
      | none => none
    let derived : DeltaBundle :=
      { priceNow := priceNow, price15mAgo := price15mAgo, price4hAgo := price4hAgo,
        fundingNow := fundingNow,
        fundingPrev := (fundHist.reverse[1]?).map (fun x => x.rate),
        oiNow := oiNow,
        oi4hAgo := (oiHist.reverse[1]?).map (fun x => x.oi),
        netFlowBase := netFlowBase }
    let sig := makeSignal derived
    Except.ok
      { symbol := symbol
        price := priceNow
        fundingRate := fundingNow
        nextFundingTime := nextFundingTime
        openInterest := oiNow
        markPrice := markPrice
        spot24 := spot24.map (fun s24 => { volume := s24.volume, takerBuyBase := s24.takerBuyBase, quoteVolume := s24.quoteVolume })
        deltas := { price15mPct := sig.dp15, oi4hPct := sig.doi4h, netFlowBase := netFlowBase }
        fundingHist := fundHist.drop (fundHist.length - 6)
        oiHist := oiHist.drop (oiHist.length - 6)
        liquidations := liqs.drop (liqs.length - 10)
        signal := { value := sig.signal, score := sig.score, reasons := sig.reasons }
        markets := { spot := spot, usdM := usdM, coinM := coinM.isSome }
        fetchedAt := env.now }

/-- Function `buildSnapshot(symbol)` (server.js lines 206-300): on success the
snapshot is stored through `keepHistory` and returned; any exception is
caught and converted into the degraded record, with the store left
untouched.  Returns the record together with the resulting store. -/
def buildSnapshot (symbol : String) (env : FetchEnv) (st : Store) : SnapshotRecord × Store :=
  match buildSnapshotBody symbol env with
  | Except.ok snap =>
      (SnapshotRecord.ok snap, keepHistory symbol (SnapshotRecord.ok snap) HISTORY_MAX_MS env.now st)
  | Except.error e => (SnapshotRecord.degraded symbol (errDescr e) env.now, st)

/-- One `keepHistory` invocation, as data: the symbol, the record
appended, and the `Date.now()` of the call. -/
structure AppendOp where
  sym : String
  snap : SnapshotRecord
  now : ℤ

/-- A sequence of `keepHistory` calls applied in order, each with the
default 24-hour window. -/
def applyOps (ops : List AppendOp) (st : Store) : Store :=
  ops.foldl (fun acc op => keepHistory op.sym op.snap HISTORY_MAX_MS op.now acc) st

/-- The end-to-end scenario bundle of the spec: price 100 → 104 (15m),
open interest 1000 → 1060 (4h), funding +0.0002 → −0.0001, null net
order flow. -/
def scenarioBuyBundle : DeltaBundle :=
  { priceNow := some 104, price15mAgo := some 100, price4hAgo := none,
    fundingNow := some (-1 / 10000), fundingPrev := some (2 / 10000),
    oiNow := some 1060, oi4hAgo := some 1000, netFlowBase := none }

/-- A bundle whose 15-minute price delta is exactly +3.0%
(100 → 103), all other inputs null. -/
def boundaryHitBundle : DeltaBundle :=
  { priceNow := some 103, price15mAgo := some 100, price4hAgo := none,
    fundingNow := none, fundingPrev := none,
    oiNow := none, oi4hAgo := none, netFlowBase := none }

/-- A bundle whose 15-minute price delta is exactly +2.999%
(100 → 102.999), all other inputs null. -/
def boundaryMissBundle : DeltaBundle :=
  { priceNow := some (102999 / 1000), price15mAgo := some 100, price4hAgo := none,
    fundingNow := none, fundingPrev := none,
    oiNow := none, oi4hAgo := none, netFlowBase := none }

/-- A cycle in which the assembly pipeline raises an exception carrying
an HTTP 500 response. -/
def faultyEnv : FetchEnv :=
  { spot := false, usdM := false, coinM := none, spot24 := none, kl15 := none, kl4h := none,
    fapiPi := none, fapiFundHist := [], fapiOi := none, fapiOiHist := [], fapiLiqs := [],
    dapiPi := none, dapiFundHist := [], dapiLiqs := [], now := 7,
    fault := some { responseStatus := some 500, message := "boom" } }

/-- A cycle on a linear-futures-listed instrument in which
`premiumIndex` failed (null) while `openInterest` succeeded with value
42, and no exception escaped the pipeline. -/
def halfFailEnv : FetchEnv :=
  { spot := false, usdM := true, coinM := none, spot24 := none, kl15 := none, kl4h := none,
    fapiPi := none, fapiFundHist := [], fapiOi := some 42, fapiOiHist := [], fapiLiqs := [],
    dapiPi := none, dapiFundHist := [], dapiLiqs := [], now := 7,
    fault := none }

/-- A minimal record with fetch timestamp 5, used by concrete
witnesses of history-store properties. -/
def witnessRecord : SnapshotRecord :=
  SnapshotRecord.degraded "ALICEUSDT" (ErrDescr.msg "w") 5

/-! ## Helper lemmas -/

theorem pct_none_right (a : Option ℚ) : pct a none = none := by
  cases a <;> rfl

theorem flipContrib_now_none (p : Option ℚ) : flipContrib p none = (0, []) := by
  cases p <;> rfl

/-- The loop of `closeAtOrBefore`, on a chronologically ordered series,
computes the last qualifying candle (falling back to the running
candidate when none qualifies). -/
theorem closeAtOrBeforeLoop_sorted (target : ℤ) :
    ∀ (l : List Candle) (c : Candle),
      l.Pairwise (fun a b => a.closeTime ≤ b.closeTime) →
      closeAtOrBeforeLoop target c l
        = ((l.filter (fun k => decide (k.closeTime ≤ target))).getLast?).getD c := by
  intro l
  induction l with
  | nil => intro c _; rfl
  | cons k rest ih =>
    intro c hs
    rw [List.pairwise_cons] at hs
    obtain ⟨hk, hrest⟩ := hs
    by_cases h : k.closeTime ≤ target
    · have hl : closeAtOrBeforeLoop target c (k :: rest) = closeAtOrBeforeLoop target k rest := by
        simp [closeAtOrBeforeLoop, h]
      rw [hl, ih k hrest, List.filter_cons_of_pos (by simpa using h)]
      cases hfr : rest.filter (fun k => decide (k.closeTime ≤ target)) with
      | nil => simp
      | cons y ys =>
        rw [List.getLast?_cons_cons]
        cases h2 : (y :: ys).getLast? with
        | none => exact absurd (List.getLast?_eq_none_iff.mp h2) (by simp)
        | some z => rfl
    · have hl : closeAtOrBeforeLoop target c (k :: rest) = c := by
        simp [closeAtOrBeforeLoop, h]
      have hf : (k :: rest).filter (fun k => decide (k.closeTime ≤ target)) = [] := by
        apply List.filter_eq_nil_iff.mpr
        intro a ha
        rcases List.mem_cons.mp ha with rfl | ha
        · simpa using h
        · simp only [decide_eq_true_eq]
          intro hle
          exact h (le_trans (hk a ha) hle)
      rw [hl, hf]
      rfl

/-! ## Claim theorems -/

/-- C3: for all inputs `a` and `b`, `pct(a, b)` returns null iff `a` is
null, `b` is null, or `a` equals 0; otherwise it returns exactly
`(b - a) / a * 100`. -/
theorem pct_null_iff_and_value :
    ∀ a b : Option ℚ,
      (pct a b = none ↔ a = none ∨ b = none ∨ a = some 0) ∧
      (∀ x y : ℚ, a = some x → b = some y → x ≠ 0 →
        pct a b = some ((y - x) / x * 100)) := by
  intro a b
  constructor
  · cases a with
    | none => simp [pct]
    | some x =>
      cases b with
      | none => simp [pct]
      | some y =>
        by_cases hx : x = 0 <;> simp [pct, hx]
  · intro x y ha hb hx
    subst ha; subst hb
    simp [pct, hx]

/-- Witness for C3 at `a = some 2`, `b = some 3`. -/
theorem pct_null_iff_and_value_witness :
    pct (some 2) (some 3) = some ((3 - 2) / 2 * 100) :=
  (pct_null_iff_and_value (some 2) (some 3)).2 2 3 rfl rfl (by norm_num)

/-- C7: `closeAtOrBefore(series, lookbackMs)` returns null iff the
series is empty or absent, and on a chronologically ordered non-empty
series it returns the close of the most recent candle whose close-time
is ≤ (now − lookbackMs), falling back to the first candle's close when
no candle qualifies (the behaviour `closeAtOrBeforeSpec` states from the
spec's words). -/
theorem closeAtOrBefore_spec :
    ∀ (now msAgo : ℤ) (kl : Option (List Candle)),
      (closeAtOrBefore now kl msAgo = none ↔ kl = none ∨ kl = some []) ∧
      (∀ l, kl = some l →
        l.Pairwise (fun a b => a.closeTime ≤ b.closeTime) →
        closeAtOrBefore now kl msAgo = closeAtOrBeforeSpec now kl msAgo) := by
  intro now msAgo kl
  constructor
  · cases kl with
    | none => simp [closeAtOrBefore]
    | some l =>
      cases l with
      | nil => simp [closeAtOrBefore]
      | cons k0 rest => simp [closeAtOrBefore]
  · intro l hkl hsorted
    subst hkl
    cases l with
    | nil => rfl
    | cons k0 rest =>
      show some (closeAtOrBeforeLoop (now - msAgo) k0 (k0 :: rest)).close = _
      rw [closeAtOrBeforeLoop_sorted (now - msAgo) (k0 :: rest) k0 hsorted]
      unfold closeAtOrBeforeSpec
      cases hq : (k0 :: rest).filter (fun k => decide (k.closeTime ≤ now - msAgo)) with
      | nil => simp [hq]
      | cons y ys =>
        simp only [hq]
        cases h2 : (y :: ys).getLast? with
        | none => exact absurd (List.getLast?_eq_none_iff.mp h2) (by simp)
        | some z => simp [h2]

/-- Witness for C7 on the two-candle ordered series
`[(closeTime 0, close 10), (closeTime 100, close 11)]` with
`now = 150`, `msAgo = 50`. -/
theorem closeAtOrBefore_spec_witness :
    closeAtOrBefore 150 (some [⟨0, 10⟩, ⟨100, 11⟩]) 50
      = closeAtOrBeforeSpec 150 (some [⟨0, 10⟩, ⟨100, 11⟩]) 50 :=
  (closeAtOrBefore_spec 150 50 (some [⟨0, 10⟩, ⟨100, 11⟩])).2
    [⟨0, 10⟩, ⟨100, 11⟩] rfl (by simp)

/-- C2: the end-to-end scenario (price +4% in 15m, open interest +6% in
4h with price also up, funding sign flip, null net flow) scores
2 + 2 + 1 = 5 and classifies as BUY; the fired rules are visible in the
reasons list. -/
theorem makeSignal_end_to_end_buy :
    (makeSignal scenarioBuyBundle).score = 5 ∧
    (makeSignal scenarioBuyBundle).signal = Signal.BUY ∧
    (makeSignal scenarioBuyBundle).reasons
      = [Reason.priceUp, Reason.oiUp, Reason.fundingFlip] := by
  refine ⟨?_, ?_, ?_⟩ <;>
    norm_num [scenarioBuyBundle, makeSignal, pct, priceContrib, oiContrib, flipContrib,
      crowdContrib, flowReasons, posPrice, jsSign, PRICE_MOVE_15M_PCT, OI_MOVE_4H_PCT,
      FUNDING_CROWD_LONG, FUNDING_CROWD_SHORT]

/-- C8: a 15-minute price delta of exactly +3.0% fires the
BUY-contributing branch (score += 2), while +2.999% contributes
nothing. -/
theorem makeSignal_threshold_boundary :
    (makeSignal boundaryHitBundle).score = 2 ∧
    (makeSignal boundaryHitBundle).reasons = [Reason.priceUp] ∧
    (makeSignal boundaryMissBundle).score = 0 ∧
    (makeSignal boundaryMissBundle).reasons = [] := by
  refine ⟨?_, ?_, ?_, ?_⟩ <;>
    norm_num [boundaryHitBundle, boundaryMissBundle, makeSignal, pct, priceContrib,
      oiContrib, flipContrib, crowdContrib, flowReasons, posPrice, jsSign,
      PRICE_MOVE_15M_PCT, OI_MOVE_4H_PCT, FUNDING_CROWD_LONG, FUNDING_CROWD_SHORT]

theorem priceContrib_bounds (d : Option ℚ) :
    -2 ≤ (priceContrib d).1 ∧ (priceContrib d).1 ≤ 2 := by
  cases d with
  | none => simp [priceContrib]
  | some x =>
    simp only [priceContrib]
    split_ifs <;> simp

theorem oiContrib_bounds (dp d : Option ℚ) :
    0 ≤ (oiContrib dp d).1 ∧ (oiContrib dp d).1 ≤ 2 := by
  cases d with
  | none => simp [oiContrib]
  | some x =>
    simp only [oiContrib]
    split_ifs <;> simp

theorem flipContrib_bounds (p n : Option ℚ) :
    0 ≤ (flipContrib p n).1 ∧ (flipContrib p n).1 ≤ 1 := by
  cases p with
  | none => simp [flipContrib]
  | some x =>
    cases n with
    | none => simp [flipContrib]
    | some y =>
      simp only [flipContrib]
      split_ifs <;> simp

theorem crowdContrib_bounds (n : Option ℚ) :
    -1 ≤ (crowdContrib n).1 ∧ (crowdContrib n).1 ≤ 1 := by
  cases n with
  | none => simp [crowdContrib]
  | some x =>
    simp only [crowdContrib]
    split_ifs <;> simp

/-- The score of `makeSignal` is the sum of the four scoring rules'
contributions (the order-flow line contributes no score). -/
theorem makeSignal_score_eq (s : DeltaBundle) :
    (makeSignal s).score
      = (priceContrib (pct s.price15mAgo s.priceNow)).1
        + (oiContrib (pct s.price15mAgo s.priceNow) (pct s.oi4hAgo s.oiNow)).1
        + (flipContrib s.fundingPrev s.fundingNow).1
        + (crowdContrib s.fundingNow).1 := rfl

/-- The reasons of `makeSignal` are the five rules' reason lists in
push order. -/
theorem makeSignal_reasons_eq (s : DeltaBundle) :
    (makeSignal s).reasons
      = (priceContrib (pct s.price15mAgo s.priceNow)).2
        ++ (oiContrib (pct s.price15mAgo s.priceNow) (pct s.oi4hAgo s.oiNow)).2
        ++ (flipContrib s.fundingPrev s.fundingNow).2
        ++ (crowdContrib s.fundingNow).2
        ++ flowReasons s.netFlowBase := rfl

/-- C10: for every delta bundle the score of `makeSignal` lies in
[-3, 6]. -/
theorem makeSignal_score_range (s : DeltaBundle) :
    -3 ≤ (makeSignal s).score ∧ (makeSignal s).score ≤ 6 := by
  have hp := priceContrib_bounds (pct s.price15mAgo s.priceNow)
  have ho := oiContrib_bounds (pct s.price15mAgo s.priceNow) (pct s.oi4hAgo s.oiNow)
  have hf := flipContrib_bounds s.fundingPrev s.fundingNow
  have hc := crowdContrib_bounds s.fundingNow
  rw [makeSignal_score_eq s]
  omega

/-- C4: the open-interest rule is asymmetric.  Relative to the same
bundle with the current open interest removed (so that the rule cannot
fire), a delta ≥ +5.0% adds 2 when the 15-minute price delta is
positive and 1 otherwise (null included), while a delta ≤ −5.0% adds 1
exactly when the 15-minute price delta is positive and 0 otherwise. -/
theorem oi_rule_asymmetric :
    ∀ (s : DeltaBundle) (d : ℚ),
      pct s.oi4hAgo s.oiNow = some d →
      ((OI_MOVE_4H_PCT ≤ d →
        (makeSignal s).score
          = (makeSignal { s with oiNow := none }).score
            + (if posPrice (pct s.price15mAgo s.priceNow) then 2 else 1)) ∧
       (d ≤ -OI_MOVE_4H_PCT →
        (makeSignal s).score
          = (makeSignal { s with oiNow := none }).score
            + (if posPrice (pct s.price15mAgo s.priceNow) then 1 else 0))) := by
  intro s d hd
  have hs : (makeSignal s).score
      = (priceContrib (pct s.price15mAgo s.priceNow)).1
        + (oiContrib (pct s.price15mAgo s.priceNow) (some d)).1
        + (flipContrib s.fundingPrev s.fundingNow).1
        + (crowdContrib s.fundingNow).1 := by
    rw [makeSignal_score_eq, hd]
  have hbase : (makeSignal { s with oiNow := none }).score
      = (priceContrib (pct s.price15mAgo s.priceNow)).1
        + (flipContrib s.fundingPrev s.fundingNow).1
        + (crowdContrib s.fundingNow).1 := by
    rw [makeSignal_score_eq]
    simp [pct_none_right, oiContrib]
  have h5 : (0 : ℚ) < OI_MOVE_4H_PCT := by norm_num [OI_MOVE_4H_PCT]
  constructor
  · intro hge
    rw [hs, hbase]
    have hoi : (oiContrib (pct s.price15mAgo s.priceNow) (some d)).1
        = if posPrice (pct s.price15mAgo s.priceNow) then 2 else 1 := by
      simp only [oiContrib, ge_iff_le]
      rw [if_pos hge]
    rw [hoi]
    ring
  · intro hle
    rw [hs, hbase]
    have hoi : (oiContrib (pct s.price15mAgo s.priceNow) (some d)).1
        = if posPrice (pct s.price15mAgo s.priceNow) then 1 else 0 := by
      simp only [oiContrib, ge_iff_le]
      rw [if_neg (by intro h; linarith), if_pos hle]
    rw [hoi]
    ring

/-- Witness for C4 on the rising-OI scenario bundle (delta +6%). -/
theorem oi_rule_asymmetric_witness :
    (makeSignal scenarioBuyBundle).score
      = (makeSignal { scenarioBuyBundle with oiNow := none }).score
        + (if posPrice (pct scenarioBuyBundle.price15mAgo scenarioBuyBundle.priceNow)
           then 2 else 1) :=
  (oi_rule_asymmetric scenarioBuyBundle 6
      (by norm_num [scenarioBuyBundle, pct])).1
    (by norm_num [OI_MOVE_4H_PCT])

theorem hist_keepHistory_same (sym : String) (snap : SnapshotRecord) (maxMs now : ℤ)
    (st : Store) :
    hist sym (keepHistory sym snap maxMs now st)
      = ((hist sym st) ++ [snap]).filter (fun x => decide (now - maxMs ≤ x.fetchedAt)) := by
  simp only [hist, keepHistory, if_pos rfl]
  cases h : st sym <;> simp [h]

theorem hist_keepHistory_other {s sym : String} (h : s ≠ sym) (snap : SnapshotRecord)
    (maxMs now : ℤ) (st : Store) :
    hist s (keepHistory sym snap maxMs now st) = hist s st := by
  simp only [hist, keepHistory, if_neg h]

theorem hist_applyOps_of_not_mem (sym : String) :
    ∀ (ops : List AppendOp) (st : Store), (∀ p ∈ ops, p.sym ≠ sym) →
      hist sym (applyOps ops st) = hist sym st := by
  intro ops
  induction ops with
  | nil => intro st _; rfl
  | cons op rest ih =>
    intro st hall
    have h1 : sym ≠ op.sym := Ne.symm (hall op (by simp))
    show hist sym (applyOps rest (keepHistory op.sym op.snap HISTORY_MAX_MS op.now st))
      = hist sym st
    rw [ih _ (fun p hp => hall p (List.mem_cons_of_mem _ hp))]
    exact hist_keepHistory_other h1 op.snap HISTORY_MAX_MS op.now st

/-- C1: after any sequence of `keepHistory` appends, every record
retained in an instrument's history has a fetch timestamp no older than
the time of the last append to that instrument minus the 24-hour
retention window — pruning happens on each insert, and `hist` is a pure
read of the store (it is modelled as a function of the store and cannot
mutate it). -/
theorem keepHistory_retention :
    ∀ (pre post : List AppendOp) (op : AppendOp) (st : Store) (sym : String),
      op.sym = sym → (∀ p ∈ post, p.sym ≠ sym) →
      ∀ x ∈ hist sym (applyOps (pre ++ op :: post) st),
        op.now - HISTORY_MAX_MS ≤ x.fetchedAt := by
  intro pre post op st sym hop hpost x hx
  have hsplit : applyOps (pre ++ op :: post) st
      = applyOps post (keepHistory op.sym op.snap HISTORY_MAX_MS op.now (applyOps pre st)) := by
    simp only [applyOps, List.foldl_append, List.foldl_cons]
  rw [hsplit, hop] at hx
  rw [hist_applyOps_of_not_mem sym post _ hpost] at hx
  rw [hist_keepHistory_same] at hx
  exact of_decide_eq_true (List.mem_filter.mp hx).2

/-- Witness for C1: a single append at time 5 retains a record whose
timestamp meets the retention bound. -/
theorem keepHistory_retention_witness :
    (5 : ℤ) - HISTORY_MAX_MS ≤ witnessRecord.fetchedAt :=
  keepHistory_retention [] [] { sym := "ALICEUSDT", snap := witnessRecord, now := 5 }
    emptyStore "ALICEUSDT" rfl (by simp) witnessRecord
    (by simp [applyOps, keepHistory, hist, emptyStore, witnessRecord, HISTORY_MAX_MS,
      SnapshotRecord.fetchedAt])

/-- C5: whenever the assembly pipeline fails with an exception,
`buildSnapshot` returns (rather than raising — it is a total function)
the degraded record carrying only the instrument id, the error
descriptor derived from the exception, and the fetch timestamp. -/
theorem buildSnapshot_degraded_on_error :
    ∀ (symbol : String) (env : FetchEnv) (st : Store) (e : JsError),
      buildSnapshotBody symbol env = Except.error e →
      buildSnapshot symbol env st
        = (SnapshotRecord.degraded symbol (errDescr e) env.now, st) := by
  intro sym env st e h
  simp [buildSnapshot, h]

/-- Witness for C5 on a pipeline exception carrying HTTP status 500. -/
theorem buildSnapshot_degraded_on_error_witness :
    buildSnapshot "ALICEUSDT" faultyEnv emptyStore
      = (SnapshotRecord.degraded "ALICEUSDT"
          (errDescr { responseStatus := some 500, message := "boom" }) faultyEnv.now,
         emptyStore) :=
  buildSnapshot_degraded_on_error "ALICEUSDT" faultyEnv emptyStore
    { responseStatus := some 500, message := "boom" } rfl

/-- C9: if the assembly pipeline throws, the store (cached snapshot and
history alike) is exactly what it was before the call, and — since
`keepHistory` is invoked only on the success path, with the assembled
snapshot — a store whose histories contain no degraded record still
contains none after any `buildSnapshot` call. -/
theorem assembly_failure_atomicity :
    ∀ (symbol : String) (env : FetchEnv) (st : Store),
      (∀ e, buildSnapshotBody symbol env = Except.error e →
        (buildSnapshot symbol env st).2 = st) ∧
      ((∀ s x, x ∈ hist s st → x.isDegraded = false) →
        ∀ s x, x ∈ hist s (buildSnapshot symbol env st).2 → x.isDegraded = false) := by
  intro sym env st
  cases hb : buildSnapshotBody sym env with
  | error e =>
    constructor
    · intro e' _; simp [buildSnapshot, hb]
    · intro hinv s x hx
      simp only [buildSnapshot, hb] at hx
      exact hinv s x hx
  | ok snap =>
    constructor
    · intro e' he'; simp at he'
    · intro hinv s x hx
      simp only [buildSnapshot, hb] at hx
      by_cases hsym : s = sym
      · subst hsym
        rw [hist_keepHistory_same] at hx
        have hx2 := (List.mem_filter.mp hx).1
        rcases List.mem_append.mp hx2 with hmem | hnew
        · exact hinv s x hmem
        · rw [List.mem_singleton.mp hnew]; rfl
      · rw [hist_keepHistory_other hsym] at hx
        exact hinv s x hx

/-- Witness for C9: after the faulty cycle on the empty store, the
store is still empty. -/
theorem assembly_failure_atomicity_witness :
    (buildSnapshot "ALICEUSDT" faultyEnv emptyStore).2 = emptyStore :=
  (assembly_failure_atomicity "ALICEUSDT" faultyEnv emptyStore).1
    { responseStatus := some 500, message := "boom" } rfl

theorem crowdContrib_none : crowdContrib none = (0, []) := rfl

theorem priceContrib_reasons (d : Option ℚ) :
    ∀ r ∈ (priceContrib d).2, r = Reason.priceUp ∨ r = Reason.priceDown := by
  cases d with
  | none => simp [priceContrib]
  | some x =>
    simp only [priceContrib]
    split_ifs <;> simp

theorem oiContrib_reasons (dp d : Option ℚ) :
    ∀ r ∈ (oiContrib dp d).2, r = Reason.oiUp ∨ r = Reason.oiDown := by
  cases d with
  | none => simp [oiContrib]
  | some x =>
    simp only [oiContrib]
    split_ifs <;> simp

theorem flowReasons_mem (f : Option ℚ) :
    ∀ r ∈ flowReasons f, r = Reason.flowPos ∨ r = Reason.flowNeg := by
  cases f with
  | none => simp [flowReasons]
  | some x =>
    simp only [flowReasons]
    split_ifs <;> simp

/-- C6: on a linear-futures-listed instrument, when `premiumIndex`
fails (null) while `openInterest` succeeds and no exception escapes the
pipeline, the assembled snapshot has `fundingRate = null` while
`openInterest` carries the fetched value, and the reasons list contains
no funding-derived reason (only price, open-interest, and order-flow
reasons, which come from the independently available data). -/
theorem fetcher_failure_independence :
    ∀ (symbol : String) (env : FetchEnv) (st : Store) (v : ℚ),
      env.fault = none → env.usdM = true → env.fapiPi = none → env.fapiOi = some v →
      ∃ snap : Snap,
        (buildSnapshot symbol env st).1 = SnapshotRecord.ok snap ∧
        snap.fundingRate = none ∧
        snap.openInterest = some v ∧
        ∀ r ∈ snap.signal.reasons,
          r ≠ Reason.fundingFlip ∧ r ≠ Reason.crowdedLongs ∧ r ≠ Reason.crowdedShorts := by
  intro symbol env st v hf hu hpi hoi
  obtain ⟨spot, usdM, coinM, spot24, kl15, kl4h, fapiPi, fapiFundHist, fapiOi, fapiOiHist,
    fapiLiqs, dapiPi, dapiFundHist, dapiLiqs, now, fault⟩ := env
  simp only at hf hu hpi hoi
  subst hf; subst hu; subst hpi; subst hoi
  refine ⟨_, rfl, rfl, rfl, ?_⟩
  intro r hr
  dsimp only at hr
  rw [makeSignal_reasons_eq] at hr
  simp only [eq_self_iff_true, if_true] at hr
  rw [flipContrib_now_none, crowdContrib_none] at hr
  simp only [List.mem_append, List.not_mem_nil, or_false, false_or] at hr
  have hset : r = Reason.priceUp ∨ r = Reason.priceDown ∨ r = Reason.oiUp ∨
      r = Reason.oiDown ∨ r = Reason.flowPos ∨ r = Reason.flowNeg := by
    rcases hr with (hp | ho) | hfl
    · rcases priceContrib_reasons _ r hp with h | h
      · exact Or.inl h
      · exact Or.inr (Or.inl h)
    · rcases oiContrib_reasons _ _ r ho with h | h
      · exact Or.inr (Or.inr (Or.inl h))
      · exact Or.inr (Or.inr (Or.inr (Or.inl h)))
    · rcases flowReasons_mem _ r hfl with h | h
      · exact Or.inr (Or.inr (Or.inr (Or.inr (Or.inl h))))
      · exact Or.inr (Or.inr (Or.inr (Or.inr (Or.inr h))))
  rcases hset with rfl | rfl | rfl | rfl | rfl | rfl <;>
    exact ⟨by decide, by decide, by decide⟩

/-- Witness for C6 on the concrete partial-failure cycle `halfFailEnv`
(open interest fetched as 42). -/
theorem fetcher_failure_independence_witness :
    ∃ snap : Snap,
      (buildSnapshot "ALICEUSDT" halfFailEnv emptyStore).1 = SnapshotRecord.ok snap ∧
      snap.fundingRate = none ∧
      snap.openInterest = some 42 ∧
      ∀ r ∈ snap.signal.reasons,
        r ≠ Reason.fundingFlip ∧ r ≠ Reason.crowdedLongs ∧ r ≠ Reason.crowdedShorts :=
  fetcher_failure_independence "ALICEUSDT" halfFailEnv emptyStore 42 rfl rfl rfl rfl

end CryptoMetrics
